import Mathlib

/-!
Verification development for the `webviz_ert.data_loader` module: a
connection-scoped data-access layer over a GraphQL and REST storage service.
The Python source is shallowly embedded: JSON documents become an inductive
`Json` type with Python-dict lookup semantics (last binding wins, as in
`json.loads`); pandas data frames become `Table`; HTTP traffic is a pure
function from requests to responses; Python exceptions become `Except Exc`,
where an uncaught exception surfaces as an `Except.error` escaping the
operation.
-/

/-- JSON documents as decoded by Python. Objects keep their field list;
lookup follows Python dict semantics (for duplicate keys the last wins). -/
inductive Json where
  | null : Json
  | bool (b : Bool) : Json
  | num (n : Int) : Json
  | str (s : String) : Json
  | arr (elems : List Json) : Json
  | obj (fields : List (String × Json)) : Json

/-- Python dict lookup on an association list: the last binding for a key
wins, mirroring how `json.loads` and dict construction collapse duplicates. -/
def vlookup {α : Type} : List (String × α) → String → Option α
  | [], _ => none
  | p :: rest, k =>
    match vlookup rest k with
    | some v => some v
    | none => if p.1 = k then some p.2 else none

/-- Python dict update `d[k] = v` on an association list: if the key is
present every binding for it is overwritten in place, otherwise the new
binding is appended (dicts preserve first-insertion order). -/
def dictSet {α : Type} (l : List (String × α)) (k : String) (v : α) : List (String × α) :=
  if l.any (fun p => p.1 = k) then l.map (fun p => if p.1 = k then (k, v) else p)
  else l ++ [(k, v)]

/-- Python exceptions that the data loader can raise or catch. -/
inductive Exc where
  | dataLoaderException (msg : String) : Exc
  | runtimeError (msg : String) : Exc
  | jsonDecodeError : Exc
  | keyError (k : String) : Exc
  | typeError : Exc
  | arrowInvalid : Exc
  | csvDecodeError : Exc
deriving DecidableEq

/-- Python dict subscript `doc[k]`: `KeyError` when missing, `TypeError`
when the value is not a dict. -/
def Json.look : Json → String → Except Exc Json
  | Json.obj fs, k =>
    match vlookup fs k with
    | some v => Except.ok v
    | none => Except.error (Exc.keyError k)
  | _, _ => Except.error Exc.typeError

/-- Sequencing of Python expressions that may raise: the first exception
propagates. -/
def exbind {α β : Type} (r : Except Exc α) (f : α → Except Exc β) : Except Exc β :=
  match r with
  | Except.error e => Except.error e
  | Except.ok v => f v

/-- A Python list comprehension over a list of fallible element builders:
elements are produced left to right and the first exception propagates. -/
def mapE {α β : Type} (f : α → Except Exc β) : List α → Except Exc (List β)
  | [] => Except.ok []
  | x :: xs =>
    match f x with
    | Except.error e => Except.error e
    | Except.ok y =>
      match mapE f xs with
      | Except.error e => Except.error e
      | Except.ok ys => Except.ok (y :: ys)

/-- A pandas index label: integer or string. `read_parquet` yields string
column labels; row indices may be integers or strings. -/
inductive IdxVal where
  | int (n : Int) : IdxVal
  | str (s : String) : IdxVal
deriving DecidableEq

/-- Digits to a natural number, most significant first. -/
def digitsToNat : List Char → Nat → Nat
  | [], acc => acc
  | c :: cs, acc => digitsToNat cs (acc * 10 + (c.toNat - 48))

/-- Decimal digit run to a natural number, requiring at least one digit. -/
def natOfDigits (cs : List Char) : Option Nat :=
  if cs.isEmpty then none
  else if cs.all Char.isDigit then some (digitsToNat cs 0) else none

/-- Python `int(s)` on a decimal string, as used by `Index.astype(int)`:
an optional sign followed by digits; anything else fails. -/
def pyToInt (s : String) : Option Int :=
  match s.data with
  | [] => none
  | c :: cs =>
    if c = '-' then (natOfDigits cs).map (fun n => -(n : Int))
    else (natOfDigits s.data).map (fun n => (n : Int))

/-- A pandas DataFrame: row index labels, column labels, and row-major cell
values (cells kept as opaque strings; the claims concern shape and order). -/
structure Table where
  index : List IdxVal
  columns : List IdxVal
  values : List (List String)
deriving DecidableEq

/-- `pd.DataFrame()`. -/
def Table.empty : Table := ⟨[], [], []⟩

/-- Column `j` of a row-major cell matrix. -/
def colAt (vals : List (List String)) (j : Nat) : List String :=
  vals.map (fun row => row.getD j "")

/-- `DataFrame.transpose()`: rows and columns swap. -/
def Table.transpose (t : Table) : Table :=
  ⟨t.columns, t.index, (List.range t.columns.length).map (colAt t.values)⟩

/-- Lexicographic comparison of char lists by code point, as Python compares
strings. -/
def charListLe : List Char → List Char → Bool
  | [], _ => true
  | _ :: _, [] => false
  | a :: as, b :: bs =>
    if a.toNat < b.toNat then true
    else if b.toNat < a.toNat then false
    else charListLe as bs

/-- Python string `<=`. -/
def strLe (a b : String) : Bool := charListLe a.data b.data

/-- Ordering used by `sort_index` on index labels. In the decode pipeline the
index is always homogeneous (all integers after a successful `astype(int)`,
otherwise all strings); the cross cases are arbitrary and never reached. -/
def idxLe : IdxVal → IdxVal → Prop
  | IdxVal.int a, IdxVal.int b => a ≤ b
  | IdxVal.str a, IdxVal.str b => strLe a b = true
  | IdxVal.int _, IdxVal.str _ => True
  | IdxVal.str _, IdxVal.int _ => False

instance : DecidableRel idxLe := fun a b => by
  cases a <;> cases b <;> simp only [idxLe] <;> infer_instance

theorem charListLe_total : ∀ (a b : List Char), charListLe a b = true ∨ charListLe b a = true := by
  intro a
  induction a with
  | nil => intro b; left; rfl
  | cons x xs ih =>
    intro b
    cases b with
    | nil => right; rfl
    | cons y ys =>
      by_cases h1 : x.toNat < y.toNat
      · left; simp [charListLe, h1]
      · by_cases h2 : y.toNat < x.toNat
        · right; simp [charListLe, h2]
        · cases ih ys with
          | inl h => left; simp [charListLe, h1, h2, h]
          | inr h => right; simp [charListLe, h1, h2, h]

theorem charListLe_trans (a b c : List Char) (hab : charListLe a b = true)
    (hbc : charListLe b c = true) : charListLe a c = true := by
  induction a generalizing b c with
  | nil => rfl
  | cons x xs ih =>
    cases b with
    | nil => simp [charListLe] at hab
    | cons y ys =>
      cases c with
      | nil => simp [charListLe] at hbc
      | cons z zs =>
        simp only [charListLe] at hab hbc ⊢
        by_cases hxy : x.toNat < y.toNat
        · by_cases hyz : y.toNat < z.toNat
          · simp [Nat.lt_trans hxy hyz]
          · by_cases hzy : z.toNat < y.toNat
            · rw [if_neg hyz, if_pos hzy] at hbc; exact absurd hbc (by simp)
            · have hxz : x.toNat < z.toNat := by omega
              simp [hxz]
        · by_cases hyx : y.toNat < x.toNat
          · rw [if_neg hxy, if_pos hyx] at hab; exact absurd hab (by simp)
          · by_cases hyz : y.toNat < z.toNat
            · have hxz : x.toNat < z.toNat := by omega
              simp [hxz]
            · by_cases hzy : z.toNat < y.toNat
              · rw [if_neg hyz, if_pos hzy] at hbc; exact absurd hbc (by simp)
              · rw [if_neg hxy, if_neg hyx] at hab
                rw [if_neg hyz, if_neg hzy] at hbc
                have hxz : ¬ x.toNat < z.toNat := by omega
                have hzx : ¬ z.toNat < x.toNat := by omega
                simp [hxz, hzx, ih ys zs hab hbc]

theorem idxLe_total (a b : IdxVal) : idxLe a b ∨ idxLe b a := by
  cases a <;> cases b <;> simp only [idxLe]
  · exact Int.le_total _ _
  · simp
  · simp
  · exact charListLe_total _ _

theorem idxLe_trans (a b c : IdxVal) (hab : idxLe a b) (hbc : idxLe b c) : idxLe a c := by
  cases a <;> cases b <;> cases c <;> simp only [idxLe] at hab hbc ⊢ <;>
    first
      | exact le_trans hab hbc
      | exact charListLe_trans _ _ _ hab hbc
      | trivial

/-- The row ordering used by `sort_index`: rows compare by their index label. -/
def rowLe (a b : IdxVal × List String) : Prop := idxLe a.1 b.1

instance : DecidableRel rowLe := fun a b => inferInstanceAs (Decidable (idxLe a.1 b.1))

instance : IsTotal (IdxVal × List String) rowLe := ⟨fun a b => idxLe_total a.1 b.1⟩

instance : IsTrans (IdxVal × List String) rowLe := ⟨fun a b c => idxLe_trans a.1 b.1 c.1⟩

/-- `DataFrame.sort_index()`: rows are reordered ascending by index label;
columns are untouched. -/
def Table.sortIndex (t : Table) : Table :=
  let rows := List.insertionSort rowLe (t.index.zip t.values)
  ⟨rows.map Prod.fst, t.columns, rows.map Prod.snd⟩

/-- `Index.astype(int)` on one label: integer labels pass through, string
labels go through Python `int`. -/
def coerceIdx : IdxVal → Option IdxVal
  | IdxVal.int n => some (IdxVal.int n)
  | IdxVal.str s => (pyToInt s).map IdxVal.int

/-- `Index.astype(int)` on a whole index: all labels convert or the cast
raises (pandas wraps the failure in a `TypeError`). -/
def coerceAll : List IdxVal → Option (List IdxVal)
  | [] => some []
  | v :: vs =>
    match coerceIdx v, coerceAll vs with
    | some w, some ws => some (w :: ws)
    | _, _ => none

/-- The guarded cast `try: df.index = df.index.astype(int) except TypeError:
pass` from `get_ensemble_record_data`. -/
def coerceTable (t : Table) : Table :=
  match coerceAll t.index with
  | some idx => ⟨idx, t.columns, t.values⟩
  | none => t

theorem coerceAll_length : ∀ (l l' : List IdxVal), coerceAll l = some l' → l'.length = l.length := by
  intro l
  induction l with
  | nil => intro l' h; simp [coerceAll] at h; simp [← h]
  | cons v vs ih =>
    intro l' h
    simp only [coerceAll] at h
    cases hv : coerceIdx v with
    | none => rw [hv] at h; simp at h
    | some w =>
      rw [hv] at h
      cases hvs : coerceAll vs with
      | none => rw [hvs] at h; simp at h
      | some ws =>
        rw [hvs] at h
        simp at h
        simp [← h, ih ws hvs]

/-- Drop leading JSON whitespace. -/
def skipWs : List Char → List Char
  | [] => []
  | c :: cs => if c = ' ' || c = '\t' || c = '\n' || c = '\r' then skipWs cs else c :: cs

/-- Match a fixed literal such as `null`, `true`, `false`. -/
def parseLit (lit : List Char) (j : Json) (cs : List Char) : Option (Json × List Char) :=
  if cs.take lit.length = lit then some (j, cs.drop lit.length) else none

/-- Body of a JSON string up to the closing quote (escape sequences are
outside the modelled subset and fail). -/
def parseStrChars : List Char → Option (List Char × List Char)
  | [] => none
  | c :: cs =>
    if c = Char.ofNat 34 then some ([], cs)
    else if c = Char.ofNat 92 then none
    else (parseStrChars cs).map (fun p => (c :: p.1, p.2))

/-- A JSON integer digit run; leading zeros are rejected as in JSON. -/
def parseNumChars (cs : List Char) : Option (Nat × List Char) :=
  let ds := cs.takeWhile Char.isDigit
  let rest := cs.dropWhile Char.isDigit
  if ds.isEmpty then none
  else if decide (1 < ds.length) && ds.headD ' ' = '0' then none
  else some (digitsToNat ds 0, rest)

/-- Array elements after the first `[`, given a parser `pv` for one value. -/
def parseElemsF (pv : List Char → Option (Json × List Char)) :
    Nat → List Char → List Json → Option (Json × List Char)
  | 0, _, _ => none
  | n + 1, cs, acc =>
    match pv cs with
    | none => none
    | some (v, rest) =>
      match skipWs rest with
      | [] => none
      | c :: r2 =>
        if c = ',' then parseElemsF pv n r2 (acc ++ [v])
        else if c = ']' then some (Json.arr (acc ++ [v]), r2)
        else none

/-- Object members after the first brace, given a parser `pv` for one value. -/
def parseMemsF (pv : List Char → Option (Json × List Char)) :
    Nat → List Char → List (String × Json) → Option (Json × List Char)
  | 0, _, _ => none
  | n + 1, cs, acc =>
    match skipWs cs with
    | [] => none
    | c :: rest =>
      if c = Char.ofNat 34 then
        match parseStrChars rest with
        | none => none
        | some (k, r2) =>
          match skipWs r2 with
          | [] => none
          | c2 :: r3 =>
            if c2 = ':' then
              match pv r3 with
              | none => none
              | some (v, r4) =>
                match skipWs r4 with
                | [] => none
                | c3 :: r5 =>
                  if c3 = ',' then parseMemsF pv n r5 (acc ++ [(String.mk k, v)])
                  else if c3 = Char.ofNat 125 then
                    some (Json.obj (acc ++ [(String.mk k, v)]), r5)
                  else none
            else none
      else none

/-- One JSON value, fuelled by nesting depth. Models the subset of Python
`json.loads` exercised here: null, booleans, integers, strings without
escapes, arrays and objects. -/
def parseValF : Nat → List Char → Option (Json × List Char)
  | 0, _ => none
  | fuel + 1, s =>
    match skipWs s with
    | [] => none
    | c :: rest =>
      if c = 'n' then parseLit ['n', 'u', 'l', 'l'] Json.null (c :: rest)
      else if c = 't' then parseLit ['t', 'r', 'u', 'e'] (Json.bool true) (c :: rest)
      else if c = 'f' then parseLit ['f', 'a', 'l', 's', 'e'] (Json.bool false) (c :: rest)
      else if c = Char.ofNat 34 then
        (parseStrChars rest).map (fun p => (Json.str (String.mk p.1), p.2))
      else if c = '-' then
        (parseNumChars rest).map (fun p => (Json.num (-(p.1 : Int)), p.2))
      else if c.isDigit then
        (parseNumChars (c :: rest)).map (fun p => (Json.num ((p.1 : Int)), p.2))
      else if c = '[' then
        match skipWs rest with
        | [] => none
        | c2 :: r2 =>
          if c2 = ']' then some (Json.arr [], r2)
          else parseElemsF (parseValF fuel) (rest.length + 1) rest []
      else if c = Char.ofNat 123 then
        match skipWs rest with
        | [] => none
        | c2 :: r2 =>
          if c2 = Char.ofNat 125 then some (Json.obj [], r2)
          else parseMemsF (parseValF fuel) (rest.length + 1) rest []
      else none

/-- Python `json.loads` on a string: a single value with only trailing
whitespace allowed. -/
def parseJson (s : String) : Option Json :=
  match parseValF (s.length + 1) s.data with
  | some (j, rest) => if (skipWs rest).isEmpty then some j else none
  | none => none

/-- Python `json.loads` applied to a decoded JSON field value: only strings
can be parsed (`TypeError` otherwise), and a malformed document raises
`json.JSONDecodeError`. -/
def jsonLoads : Json → Except Exc Json
  | Json.str s =>
    match parseJson s with
    | some j => Except.ok j
    | none => Except.error Exc.jsonDecodeError
  | _ => Except.error Exc.typeError

example : parseJson "xnotjson" = none := rfl
example : parseJson " \x7b\"a\": [1, -2, true], \"b\": null\x7d " =
    some (Json.obj [("a", Json.arr [Json.num 1, Json.num (-2), Json.bool true]),
                    ("b", Json.null)]) := rfl

/-- HTTP method. -/
inductive Verb where
  | get : Verb
  | post : Verb
deriving DecidableEq

/-- Value of a query parameter as passed to `requests` (`str`, `bool` or
`int` values occur in the source). -/
inductive PVal where
  | str (s : String) : PVal
  | bool (b : Bool) : PVal
  | int (n : Int) : PVal
deriving DecidableEq

/-- An outgoing HTTP request. Header values are `Option String` because the
`Token` header carries the loader's optional token. -/
structure Request where
  verb : Verb
  url : String
  headers : List (String × Option String)
  params : List (String × PVal)
  gqlBody : Option Json

/-- A raw CSV payload: header row and data rows. -/
structure CsvGrid where
  header : List String
  rows : List (List String)

/-- What an HTTP response body decodes as: a JSON document, raw undecodable
bytes, a parquet table, or CSV text. Non-matching decoders fail. -/
inductive Body where
  | jsonBody (j : Json) : Body
  | rawBody (s : String) : Body
  | parquetBody (t : Table) : Body
  | csvBody (g : CsvGrid) : Body

/-- An HTTP response. -/
structure Response where
  status : Nat
  body : Body

/-- The network: a pure function from requests to responses, standing in for
`requests.get` / `requests.post`. -/
abbrev World := Request → Response

/-- A world that answers every request identically. -/
def constWorld (s : Nat) (b : Body) : World := fun _ => ⟨s, b⟩

/-- `resp.json()`: raises `json.JSONDecodeError` unless the body is JSON. -/
def Response.json (r : Response) : Except Exc Json :=
  match r.body with
  | Body.jsonBody j => Except.ok j
  | _ => Except.error Exc.jsonDecodeError

/-- `pd.read_parquet(io.BytesIO(resp.content))`: raises a pyarrow error
unless the body is a parquet table. -/
def Response.readParquet (r : Response) : Except Exc Table :=
  match r.body with
  | Body.parquetBody t => Except.ok t
  | _ => Except.error Exc.arrowInvalid

/-- `pd.read_csv(stream, index_col=0, float_precision="round_trip")`: the
first column becomes the row index, the remaining header cells the columns;
cell text is preserved verbatim. -/
def readCsvGrid (g : CsvGrid) : Table :=
  ⟨g.rows.map (fun row => IdxVal.str (row.headD "")),
   (g.header.drop 1).map IdxVal.str,
   g.rows.map (fun row => row.drop 1)⟩

/-- `pd.read_csv` on a response body. -/
def Response.readCsv (r : Response) : Except Exc Table :=
  match r.body with
  | Body.csvBody g => Except.ok (readCsvGrid g)
  | _ => Except.error Exc.csvDecodeError

/-- `(baseurl, token)` pair identifying one backend connection. -/
abbrev ServerIdentifier := String × Option String

/-- A `DataLoader` instance: `objId` models Python object identity, the other
fields are set in `__new__` (`_graphql_cache` is the unused per-query cache
hook, initialised empty). -/
structure DataLoader where
  objId : Nat
  baseurl : String
  token : Option String
  graphqlCache : List (String × Json)

/-- The class-level `DataLoader._instances` table plus an allocation counter
for fresh object identities. -/
structure Registry where
  instances : List (ServerIdentifier × DataLoader)
  nextId : Nat

/-- Invariant of `_instances`: each stored loader carries exactly the key it
is filed under (established by `__new__`, which sets the fields). -/
def Registry.keyed (reg : Registry) : Prop :=
  ∀ p ∈ reg.instances, p.2.baseurl = p.1.1 ∧ p.2.token = p.1.2

/-- `DataLoader.__new__`: return the instance registered for the key, or
allocate one, set its fields, register and return it. -/
def DataLoader.new (reg : Registry) (baseurl : String) (token : Option String) :
    DataLoader × Registry :=
  match reg.instances.find? (fun p => p.1 = (baseurl, token)) with
  | some p => (p.2, reg)
  | none =>
    let loader : DataLoader := ⟨reg.nextId, baseurl, token, []⟩
    (loader, ⟨reg.instances ++ [((baseurl, token), loader)], reg.nextId + 1⟩)

/-- What `ert_shared.storage.connection.get_info` returns: a base url and an
`auth` pair whose second component is the token. -/
structure RawConnInfo where
  baseurl : String
  auth : String × String
deriving DecidableEq

/-- The cached form: `info["auth"] = info["auth"][1]` keeps only the token. -/
structure StoredConnInfo where
  baseurl : String
  auth : String
deriving DecidableEq

/-- Result of one `get_connection_info` call: the returned info, the state of
the module-level `connection_info_map` afterwards, and how many times the
external provider was consulted during the call. -/
structure ConnResult where
  info : StoredConnInfo
  cache : List (Option String × StoredConnInfo)
  lookups : Nat
deriving DecidableEq

/-- `get_connection_info`: consult `connection_info_map` first; on a miss ask
the provider, keep only the token from the auth pair, and store the result
under the project id (`None` is an ordinary key for the no-project case). -/
def get_connection_info (provider : Option String → RawConnInfo)
    (project_id : Option String)
    (cache : List (Option String × StoredConnInfo)) : ConnResult :=
  match cache.find? (fun p => p.1 = project_id) with
  | some p => ⟨p.2, cache, 0⟩
  | none =>
    let raw := provider project_id
    let stored : StoredConnInfo := ⟨raw.baseurl, raw.auth.2⟩
    ⟨stored, cache ++ [(project_id, stored)], 1⟩

/-- The `GET_REALIZATION` GraphQL query text. -/
def GET_REALIZATION : String :=
  "query($ensembleId: ID!) \x7b ensemble(id: $ensembleId) \x7b name responses \x7b name data_uri \x7d parameters \x7b name data_uri \x7d \x7d \x7d"

/-- The `GET_ALL_ENSEMBLES` GraphQL query text. -/
def GET_ALL_ENSEMBLES : String :=
  "query \x7b experiments \x7b name ensembles \x7b id timeCreated parentEnsemble \x7b id \x7d childEnsembles \x7b id \x7d \x7d \x7d \x7d"

/-- The `GET_ENSEMBLE` GraphQL query text. -/
def GET_ENSEMBLE : String :=
  "query ($id: ID!) \x7b ensemble(id: $id) \x7b id size activeRealizations timeCreated children \x7b ensembleResult \x7b id \x7d \x7d userdata parent \x7b ensembleReference \x7b id \x7d \x7d experiment \x7b id name \x7d \x7d \x7d"

/-- The `GET_PRIORS` GraphQL query text. -/
def GET_PRIORS : String :=
  "query($id: ID!) \x7b experiment(id: $id) \x7b priors \x7d \x7d"

/-- `\x7b**headers, "Token": self.token\x7d`: caller headers merged with the
loader token, the token overriding any caller-supplied `Token` entry. -/
def mergeHeaders (headers : List (String × String)) (token : Option String) :
    List (String × Option String) :=
  dictSet (headers.map (fun p => (p.1, some p.2))) "Token" token

/-- The POST request `_query` sends to `baseurl/gql`. -/
def gqlRequest (L : DataLoader) (q : String) (vars : List (String × Json)) : Request :=
  ⟨Verb.post, L.baseurl ++ "/gql", [("Token", L.token)], [],
   some (Json.obj [("query", Json.str q), ("variables", Json.obj vars)])⟩

/-- The GET request `_get` sends to `baseurl/url`. -/
def restRequest (L : DataLoader) (url : String) (headers : List (String × String))
    (params : List (String × PVal)) : Request :=
  ⟨Verb.get, L.baseurl ++ "/" ++ url, mergeHeaders headers L.token, params, none⟩

/-- Message of the `DataLoaderException` raised by `_get` on a bad status. -/
def dleMsg (baseurl url : String) (status : Nat) : String :=
  "Error fetching data from " ++ baseurl ++ "/" ++ url ++
    " The request return with status code: " ++ toString status

/-- Message of the `RuntimeError` raised by `_query`. -/
def qryMsg (status : Nat) : String :=
  "ERT Storage query returned with " ++ toString status

/-- `DataLoader._query`: POST to `/gql`; a body that does not decode as JSON
falls back to the raw bytes, and a non-200 status or raw-bytes body raises
`RuntimeError`; otherwise the `data` envelope field is subscripted. Returns
the outcome and the request that was issued. -/
def DataLoader._query (L : DataLoader) (w : World) (q : String)
    (vars : List (String × Json)) : Except Exc Json × Request :=
  let req := gqlRequest L q vars
  let resp := w req
  (match resp.body with
   | Body.jsonBody doc =>
     if resp.status ≠ 200 then Except.error (Exc.runtimeError (qryMsg resp.status))
     else doc.look "data"
   | _ => Except.error (Exc.runtimeError (qryMsg resp.status)), req)

/-- `DataLoader._get`: GET with merged headers; a non-200 status raises
`DataLoaderException`. Returns the outcome and the request that was issued. -/
def DataLoader._get (L : DataLoader) (w : World) (url : String)
    (headers : List (String × String)) (params : List (String × PVal)) :
    Except Exc Response × Request :=
  let req := restRequest L url headers params
  let resp := w req
  ((if resp.status ≠ 200 then
      Except.error (Exc.dataLoaderException (dleMsg L.baseurl url resp.status))
    else Except.ok resp), req)

/-- Outcome of one domain operation: the returned value (or the uncaught
exception escaping the Client boundary), the requests issued, and the
messages passed to `logger.error`. -/
structure OpResult (α : Type) where
  val : Except Exc α
  requests : List Request
  logged : List String

/-- Which exceptions an `except` clause catches: `except DataLoaderException`. -/
def caughtDLE : Exc → Option String
  | Exc.dataLoaderException m => some m
  | _ => none

/-- Which exceptions an `except` clause catches: `except RuntimeError`. -/
def caughtRTE : Exc → Option String
  | Exc.runtimeError m => some m
  | _ => none

/-- The `try: ... except E as e: logger.error(e); return empty` wrapper every
domain operation uses: a caught exception is logged and replaced by the
operation's declared empty value; any other exception escapes. -/
def runCaught {α : Type} (caught : Exc → Option String) (empty : α) (req : Request)
    (r : Except Exc α) : OpResult α :=
  ⟨(match r with
    | Except.ok v => Except.ok v
    | Except.error e =>
      match caught e with
      | some _ => Except.ok empty
      | none => Except.error e),
   [req],
   (match r with
    | Except.ok _ => []
    | Except.error e =>
      match caught e with
      | some m => [m]
      | none => [])⟩

/-- The element builder of `get_all_ensembles`' list comprehension:
`\x7b"name": exp["name"], **ens\x7d`. -/
def pyMerge (nm : Json) (fs : List (String × Json)) : List (String × Json) :=
  fs.foldl (fun d p => dictSet d p.1 p.2) [("name", nm)]

/-- One ensemble record of the comprehension: subscript the experiment name,
then splat the ensemble dict over it. -/
def ensembleRecord (exp : Json) (ens : Json) : Except Exc Json :=
  match exp.look "name" with
  | Except.error e => Except.error e
  | Except.ok nm =>
    match ens with
    | Json.obj fs => Except.ok (Json.obj (pyMerge nm fs))
    | _ => Except.error Exc.typeError

/-- All records contributed by one experiment: subscript its `ensembles`
list and build one record per ensemble. -/
def experimentRecords (exp : Json) : Except Exc (List Json) :=
  match exp.look "ensembles" with
  | Except.error e => Except.error e
  | Except.ok (Json.arr es) => mapE (ensembleRecord exp) es
  | Except.ok _ => Except.error Exc.typeError

/-- The full comprehension of `get_all_ensembles`, flattening experiments in
order and each experiment's ensembles in order. -/
def flattenExperiments (j : Json) : Except Exc (List Json) :=
  match j with
  | Json.arr exps =>
    (match mapE experimentRecords exps with
     | Except.ok ls => Except.ok ls.flatten
     | Except.error e => Except.error e)
  | _ => Except.error Exc.typeError

/-- `DataLoader.get_all_ensembles`. -/
def DataLoader.get_all_ensembles (L : DataLoader) (w : World) : OpResult (List Json) :=
  let qr := L._query w GET_ALL_ENSEMBLES []
  runCaught caughtRTE [] qr.2
    (exbind qr.1 (fun data => exbind (data.look "experiments") flattenExperiments))

/-- `DataLoader.get_ensemble`. -/
def DataLoader.get_ensemble (L : DataLoader) (w : World) (ensemble_id : String) :
    OpResult Json :=
  let qr := L._query w GET_ENSEMBLE [("id", Json.str ensemble_id)]
  runCaught caughtRTE (Json.obj []) qr.2
    (exbind qr.1 (fun data => data.look "ensemble"))

/-- `DataLoader.get_ensemble_responses`. -/
def DataLoader.get_ensemble_responses (L : DataLoader) (w : World)
    (ensemble_id : String) : OpResult Json :=
  let gr := L._get w ("ensembles/" ++ ensemble_id ++ "/responses") [] []
  runCaught caughtDLE (Json.obj []) gr.2 (exbind gr.1 Response.json)

/-- `DataLoader.get_ensemble_userdata`. -/
def DataLoader.get_ensemble_userdata (L : DataLoader) (w : World)
    (ensemble_id : String) : OpResult Json :=
  let gr := L._get w ("ensembles/" ++ ensemble_id ++ "/userdata") [] []
  runCaught caughtDLE (Json.obj []) gr.2 (exbind gr.1 Response.json)

/-- `DataLoader.get_ensemble_parameters`. -/
def DataLoader.get_ensemble_parameters (L : DataLoader) (w : World)
    (ensemble_id : String) : OpResult Json :=
  let gr := L._get w ("ensembles/" ++ ensemble_id ++ "/parameters") [] []
  runCaught caughtDLE (Json.arr []) gr.2 (exbind gr.1 Response.json)

/-- `DataLoader.get_record_labels`. -/
def DataLoader.get_record_labels (L : DataLoader) (w : World)
    (ensemble_id name : String) : OpResult Json :=
  let gr := L._get w ("ensembles/" ++ ensemble_id ++ "/records/" ++ name ++ "/labels") [] []
  runCaught caughtDLE (Json.arr []) gr.2 (exbind gr.1 Response.json)

/-- `DataLoader.get_experiment_priors`: runs `GET_PRIORS`, subscripts
`experiment` then `priors`, and `json.loads` the priors string. Only
`RuntimeError` is caught. -/
def DataLoader.get_experiment_priors (L : DataLoader) (w : World)
    (experiment_id : String) : OpResult Json :=
  let qr := L._query w GET_PRIORS [("id", Json.str experiment_id)]
  runCaught caughtRTE (Json.obj []) qr.2
    (exbind qr.1 (fun data =>
      exbind (data.look "experiment") (fun experiment =>
        exbind (experiment.look "priors") jsonLoads)))

/-- `parameter_name.split("::", 1)` guarded by `if "::" in parameter_name`:
the record name and the optional label. -/
def splitOnceAux : List Char → List Char → Option (List Char × List Char)
  | _, [] => none
  | acc, c :: cs =>
    if c = ':' then
      match cs with
      | c2 :: cs2 => if c2 = ':' then some (acc.reverse, cs2) else splitOnceAux (c :: acc) cs
      | [] => none
    else splitOnceAux (c :: acc) cs

/-- Split a parameter name at the first `::` into name and label. -/
def splitParamName (p : String) : String × Option String :=
  match splitOnceAux [] p.data with
  | some nl => (String.mk nl.1, some (String.mk nl.2))
  | none => (p, none)

/-- `DataLoader.get_ensemble_parameter_data`: optional `label` query
parameter, parquet decode, transpose. -/
def DataLoader.get_ensemble_parameter_data (L : DataLoader) (w : World)
    (ensemble_id parameter_name : String) : OpResult Table :=
  let nl := splitParamName parameter_name
  let params : List (String × PVal) :=
    match nl.2 with
    | some label => [("label", PVal.str label)]
    | none => []
  let gr := L._get w ("ensembles/" ++ ensemble_id ++ "/records/" ++ nl.1)
    [("accept", "application/x-parquet")] params
  runCaught caughtDLE Table.empty gr.2
    (exbind gr.1 (fun resp => exbind resp.readParquet (fun t => Except.ok t.transpose)))

/-- `DataLoader.get_ensemble_record_data`: parquet decode and transpose under
`except DataLoaderException`; then, outside that block, the guarded integer
cast of the index and an unconditional `sort_index()`. -/
def DataLoader.get_ensemble_record_data (L : DataLoader) (w : World)
    (ensemble_id record_name : String) : OpResult Table :=
  let gr := L._get w ("ensembles/" ++ ensemble_id ++ "/records/" ++ record_name)
    [("accept", "application/x-parquet")] []
  ⟨(match exbind gr.1 Response.readParquet with
    | Except.error (Exc.dataLoaderException _) => Except.ok Table.empty
    | Except.error e => Except.error e
    | Except.ok t => Except.ok (Table.sortIndex (coerceTable t.transpose))),
   [gr.2],
   (match exbind gr.1 Response.readParquet with
    | Except.error (Exc.dataLoaderException m) => [m]
    | _ => [])⟩

/-- `DataLoader.get_ensemble_record_observations`: fixed
`realization_index=0` query parameter. -/
def DataLoader.get_ensemble_record_observations (L : DataLoader) (w : World)
    (ensemble_id record_name : String) : OpResult Json :=
  let gr := L._get w ("ensembles/" ++ ensemble_id ++ "/records/" ++ record_name ++ "/observations")
    [] [("realization_index", PVal.int 0)]
  runCaught caughtDLE (Json.arr []) gr.2 (exbind gr.1 Response.json)

/-- `DataLoader.compute_misfit`: CSV decode with the first column as index,
not transposed. -/
def DataLoader.compute_misfit (L : DataLoader) (w : World)
    (ensemble_id response_name : String) (summary : Bool) : OpResult Table :=
  let gr := L._get w "compute/misfits" []
    [("ensemble_id", PVal.str ensemble_id), ("response_name", PVal.str response_name),
     ("summary_misfits", PVal.bool summary)]
  runCaught caughtDLE Table.empty gr.2 (exbind gr.1 Response.readCsv)

theorem vlookup_append_single {α : Type} (l : List (String × α)) (k : String) (v : α) :
    vlookup (l ++ [(k, v)]) k = some v := by
  induction l with
  | nil => simp [vlookup]
  | cons p rest ih => simp [vlookup, ih]

theorem vlookup_none_of_no_key {α : Type} (l : List (String × α)) (k : String)
    (h : l.any (fun p => p.1 = k) = false) : vlookup l k = none := by
  induction l with
  | nil => rfl
  | cons p rest ih =>
    simp only [List.any_cons, Bool.or_eq_false_iff] at h
    simp only [vlookup, ih h.2]
    simp only [decide_eq_false_iff_not] at h
    simp [h.1]

theorem vlookup_map_replace {α : Type} (l : List (String × α)) (k : String) (v : α)
    (h : l.any (fun p => p.1 = k) = true) :
    vlookup (l.map (fun p => if p.1 = k then (k, v) else p)) k = some v := by
  induction l with
  | nil => simp at h
  | cons p rest ih =>
    simp only [List.map_cons, vlookup]
    cases ha : rest.any (fun p => p.1 = k) with
    | true => rw [ih ha]
    | false =>
      have hrest : (rest.map (fun p => if p.1 = k then (k, v) else p)) = rest := by
        clear h ih
        induction rest with
        | nil => rfl
        | cons q qs ihq =>
          simp only [List.any_cons, Bool.or_eq_false_iff] at ha
          simp only [List.map_cons, ihq ha.2]
          simp only [decide_eq_false_iff_not] at ha
          simp [ha.1]
      rw [hrest, vlookup_none_of_no_key rest k ha]
      simp only [List.any_cons, ha, Bool.or_false] at h
      simp only [decide_eq_true_eq] at h
      simp [h]

theorem vlookup_dictSet {α : Type} (l : List (String × α)) (k : String) (v : α) :
    vlookup (dictSet l k v) k = some v := by
  unfold dictSet
  cases h : l.any (fun p => p.1 = k) with
  | true => simp only [if_pos]; exact vlookup_map_replace l k v h
  | false => simp only [Bool.false_eq_true, if_neg, not_false_iff]; exact vlookup_append_single l k v

theorem vlookup_dictSet_ne {α : Type} (l : List (String × α)) (k0 : String) (v : α)
    (k : String) (h : k0 ≠ k) : vlookup (dictSet l k0 v) k = vlookup l k := by
  unfold dictSet
  cases ha : l.any (fun p => p.1 = k0) with
  | true =>
    simp only [if_pos]
    clear ha
    induction l with
    | nil => rfl
    | cons p rest ih =>
      simp only [List.map_cons, vlookup, ih]
      by_cases hp : p.1 = k0
      · simp only [hp, if_pos rfl]
        have h1 : (k0 = k) = False := by simp [h]
        have h2 : (p.1 = k) = False := by simp [hp, h]
        simp [h1, h2]
      · simp [hp]
  | false =>
    simp only [Bool.false_eq_true, if_neg, not_false_iff]
    induction l with
    | nil => simp [vlookup, h]
    | cons p rest ih =>
      simp only [List.any_cons, Bool.or_eq_false_iff] at ha
      have hr : vlookup (rest.append [(k0, v)]) k = vlookup rest k := ih ha.2
      simp only [List.cons_append, vlookup]
      rw [hr]

theorem vlookup_pyfold (fs : List (String × Json)) (d0 : List (String × Json)) (k : String) :
    vlookup (fs.foldl (fun d p => dictSet d p.1 p.2) d0) k
      = (match vlookup fs k with
         | some v => some v
         | none => vlookup d0 k) := by
  induction fs generalizing d0 with
  | nil => rfl
  | cons p rest ih =>
    simp only [List.foldl_cons, vlookup, ih]
    cases hv : vlookup rest k with
    | some v => rfl
    | none =>
      by_cases hp : p.1 = k
      · subst hp; rw [vlookup_dictSet]; simp
      · rw [vlookup_dictSet_ne _ _ _ _ hp]; simp [hp]

theorem new_find_self (reg : Registry) (b : String) (t : Option String) :
    (DataLoader.new reg b t).2.instances.find? (fun p => p.1 = (b, t))
      = some ((b, t), (DataLoader.new reg b t).1) := by
  unfold DataLoader.new
  cases h : reg.instances.find? (fun p => p.1 = (b, t)) with
  | some p =>
    have hp := List.find?_some h
    simp only [decide_eq_true_eq] at hp
    simp only [h]
    rw [← hp]
  | none =>
    simp only [h]
    rw [List.find?_append, h]
    simp

theorem new_hit (reg : Registry) (b : String) (t : Option String)
    (p : ServerIdentifier × DataLoader)
    (h : reg.instances.find? (fun q => q.1 = (b, t)) = some p) :
    DataLoader.new reg b t = (p.2, reg) := by
  unfold DataLoader.new
  rw [h]

theorem new_fields (reg : Registry) (b : String) (t : Option String) (hk : reg.keyed) :
    (DataLoader.new reg b t).1.baseurl = b ∧ (DataLoader.new reg b t).1.token = t := by
  unfold DataLoader.new
  cases h : reg.instances.find? (fun p => p.1 = (b, t)) with
  | some p =>
    have hp := List.find?_some h
    simp only [decide_eq_true_eq] at hp
    have hm := List.mem_of_find?_eq_some h
    have hf := hk p hm
    simp only [h]
    exact ⟨by rw [hf.1, hp], by rw [hf.2, hp]⟩
  | none =>
    simp [h]

theorem new_keyed (reg : Registry) (b : String) (t : Option String) (hk : reg.keyed) :
    (DataLoader.new reg b t).2.keyed := by
  unfold DataLoader.new
  cases h : reg.instances.find? (fun p => p.1 = (b, t)) with
  | some p => simp only [h]; exact hk
  | none =>
    simp only [h]
    intro q hq
    rw [Registry.keyed] at hk
    simp only [List.mem_append, List.mem_singleton] at hq
    cases hq with
    | inl hq => exact hk q hq
    | inr hq => subst hq; exact ⟨rfl, rfl⟩

theorem new_grows (reg : Registry) (b : String) (t : Option String) :
    ∃ l, (DataLoader.new reg b t).2.instances = reg.instances ++ l := by
  unfold DataLoader.new
  cases h : reg.instances.find? (fun p => p.1 = (b, t)) with
  | some p => simp only [h]; exact ⟨[], by simp⟩
  | none => simp only [h]; exact ⟨_, rfl⟩

/-- C3: constructing a `DataLoader` twice with the same `(baseurl, token)` key
returns the identical instance and leaves the registry untouched; a distinct
key never yields that instance; the registry only grows and its key invariant
is preserved, so the mapping lives on with no invalidation. -/
theorem client_singleton_by_key (reg : Registry) (b1 b2 : String)
    (t1 t2 : Option String) (hk : reg.keyed) :
    DataLoader.new (DataLoader.new reg b1 t1).2 b1 t1 = DataLoader.new reg b1 t1
    ∧ ((b1, t1) ≠ (b2, t2) →
        (DataLoader.new (DataLoader.new reg b1 t1).2 b2 t2).1 ≠ (DataLoader.new reg b1 t1).1)
    ∧ (∃ l, (DataLoader.new reg b1 t1).2.instances = reg.instances ++ l)
    ∧ (DataLoader.new reg b1 t1).2.keyed := by
  refine ⟨?_, ?_, new_grows reg b1 t1, new_keyed reg b1 t1 hk⟩
  · have hf := new_find_self reg b1 t1
    rw [new_hit _ b1 t1 _ hf]
  · intro hne heq
    have h1 := new_fields reg b1 t1 hk
    have hk1 := new_keyed reg b1 t1 hk
    have h2 := new_fields (DataLoader.new reg b1 t1).2 b2 t2 hk1
    have hb : b2 = b1 := h2.1.symm.trans ((congrArg DataLoader.baseurl heq).trans h1.1)
    have ht : t2 = t1 := h2.2.symm.trans ((congrArg DataLoader.token heq).trans h1.2)
    exact hne (by rw [hb, ht])

/-- Witness for C3 at the empty registry with keys `("u", none)` and
`("v", none)`. -/
theorem client_singleton_by_key_witness :
    (Registry.mk [] 0).keyed
    ∧ (DataLoader.new (DataLoader.new ⟨[], 0⟩ "u" none).2 "u" none
        = DataLoader.new ⟨[], 0⟩ "u" none
      ∧ (("u", (none : Option String)) ≠ ("v", none) →
          (DataLoader.new (DataLoader.new ⟨[], 0⟩ "u" none).2 "v" none).1
            ≠ (DataLoader.new ⟨[], 0⟩ "u" none).1)
      ∧ (∃ l, (DataLoader.new ⟨[], 0⟩ "u" none).2.instances = ([] : List (ServerIdentifier × DataLoader)) ++ l)
      ∧ (DataLoader.new ⟨[], 0⟩ "u" none).2.keyed) :=
  ⟨fun _ hp => absurd hp (List.not_mem_nil _),
   client_singleton_by_key ⟨[], 0⟩ "u" "v" none none (fun _ hp => absurd hp (List.not_mem_nil _))⟩

/-- C4: `get_connection_info` on an uncached project id consults the provider
exactly once and stores the result; the immediate second call is a pure cache
hit (zero provider lookups, same info, unchanged cache). -/
theorem connection_info_cached_once (provider : Option String → RawConnInfo)
    (pid : Option String) (cache : List (Option String × StoredConnInfo))
    (h : cache.find? (fun p => p.1 = pid) = none) :
    (get_connection_info provider pid cache).lookups = 1
    ∧ (get_connection_info provider pid (get_connection_info provider pid cache).cache).lookups = 0
    ∧ (get_connection_info provider pid (get_connection_info provider pid cache).cache).info
        = (get_connection_info provider pid cache).info
    ∧ (get_connection_info provider pid (get_connection_info provider pid cache).cache).cache
        = (get_connection_info provider pid cache).cache := by
  unfold get_connection_info
  rw [h]
  simp only [List.find?_append, h, Option.none_or]
  simp [List.find?]

/-- Witness for C4 at the no-project key and the empty cache. -/
theorem connection_info_cached_once_witness :
    (([] : List (Option String × StoredConnInfo)).find? (fun p => p.1 = (none : Option String)) = none)
    ∧ ((get_connection_info (fun _ => ⟨"http://srv", ("user", "tok")⟩) none []).lookups = 1
      ∧ (get_connection_info (fun _ => ⟨"http://srv", ("user", "tok")⟩) none
          (get_connection_info (fun _ => ⟨"http://srv", ("user", "tok")⟩) none []).cache).lookups = 0
      ∧ (get_connection_info (fun _ => ⟨"http://srv", ("user", "tok")⟩) none
          (get_connection_info (fun _ => ⟨"http://srv", ("user", "tok")⟩) none []).cache).info
          = (get_connection_info (fun _ => ⟨"http://srv", ("user", "tok")⟩) none []).info
      ∧ (get_connection_info (fun _ => ⟨"http://srv", ("user", "tok")⟩) none
          (get_connection_info (fun _ => ⟨"http://srv", ("user", "tok")⟩) none []).cache).cache
          = (get_connection_info (fun _ => ⟨"http://srv", ("user", "tok")⟩) none []).cache) :=
  ⟨rfl, connection_info_cached_once (fun _ => ⟨"http://srv", ("user", "tok")⟩) none [] rfl⟩

/-- C9: every request issued through `_get` carries the header entry
`Token = self.token`, overriding any caller-supplied `Token` header. -/
theorem token_header_overrides (L : DataLoader) (w : World) (u : String)
    (hs : List (String × String)) (ps : List (String × PVal)) :
    vlookup (L._get w u hs ps).2.headers "Token" = some L.token :=
  vlookup_dictSet _ _ _

/-- A concrete loader instance used by the closed counterexample and witness
statements. -/
def srvLoader : DataLoader := ⟨0, "http://srv", some "tok", []⟩

/-- C10: in `get_all_ensembles` the record is built as
`\x7b"name": exp["name"], **ens\x7d`, so an ensemble carrying its own `name`
key overrides the experiment name in the flattened record. -/
theorem ensemble_name_overrides_experiment (L : DataLoader) (nm : String)
    (fs : List (String × Json)) (v : Json) (h : vlookup fs "name" = some v) :
    (L.get_all_ensembles (constWorld 200 (Body.jsonBody (Json.obj [("data", Json.obj
        [("experiments", Json.arr [Json.obj [("name", Json.str nm),
          ("ensembles", Json.arr [Json.obj fs])]])])])))).val
      = Except.ok [Json.obj (pyMerge (Json.str nm) fs)]
    ∧ vlookup (pyMerge (Json.str nm) fs) "name" = some v := by
  constructor
  · rfl
  · rw [pyMerge, vlookup_pyfold, h]

/-- Witness for C10: the ensemble field list carries `name = "B"` which wins
over the experiment name `"A"`. -/
theorem ensemble_name_overrides_experiment_witness :
    vlookup [("id", Json.num 1), ("name", Json.str "B")] "name" = some (Json.str "B")
    ∧ ((srvLoader.get_all_ensembles (constWorld 200 (Body.jsonBody (Json.obj [("data", Json.obj
        [("experiments", Json.arr [Json.obj [("name", Json.str "A"),
          ("ensembles", Json.arr [Json.obj [("id", Json.num 1), ("name", Json.str "B")]])]])])])))).val
        = Except.ok [Json.obj (pyMerge (Json.str "A") [("id", Json.num 1), ("name", Json.str "B")])]
      ∧ vlookup (pyMerge (Json.str "A") [("id", Json.num 1), ("name", Json.str "B")]) "name"
          = some (Json.str "B")) :=
  ⟨rfl, ensemble_name_overrides_experiment srvLoader "A"
    [("id", Json.num 1), ("name", Json.str "B")] (Json.str "B") rfl⟩

/-- A well-shaped experiment as the GraphQL endpoint returns it: a name and a
list of ensemble objects. -/
structure ExperimentWire where
  exname : String
  ensembles : List (List (String × Json))

/-- The JSON document for one experiment. -/
def expJson (e : ExperimentWire) : Json :=
  Json.obj [("name", Json.str e.exname), ("ensembles", Json.arr (e.ensembles.map Json.obj))]

/-- The JSON `experiments` list for a whole response. -/
def buildExperiments (exps : List ExperimentWire) : Json := Json.arr (exps.map expJson)

/-- A successful GraphQL response envelope. -/
def gqlEnvelope (x : Json) : Json := Json.obj [("data", Json.obj [("experiments", x)])]

/-- The expected flattening: experiments in order, each experiment's
ensembles in order, each record the experiment name merged with the ensemble
fields. -/
def flattenWires (exps : List ExperimentWire) : List Json :=
  (exps.map (fun e => e.ensembles.map (fun fs => Json.obj (pyMerge (Json.str e.exname) fs)))).flatten

theorem ensembleRecord_eval (nm : String) (x : Json) (fs : List (String × Json)) :
    ensembleRecord (Json.obj [("name", Json.str nm), ("ensembles", x)]) (Json.obj fs)
      = Except.ok (Json.obj (pyMerge (Json.str nm) fs)) := rfl

theorem mapE_ensembleRecord (nm : String) (x : Json) (l : List (List (String × Json))) :
    mapE (ensembleRecord (Json.obj [("name", Json.str nm), ("ensembles", x)])) (l.map Json.obj)
      = Except.ok (l.map (fun fs => Json.obj (pyMerge (Json.str nm) fs))) := by
  induction l with
  | nil => rfl
  | cons fs rest ih =>
    simp only [List.map_cons, mapE, ensembleRecord_eval, ih]

theorem experimentRecords_eval (e : ExperimentWire) :
    experimentRecords (expJson e)
      = Except.ok (e.ensembles.map (fun fs => Json.obj (pyMerge (Json.str e.exname) fs))) := by
  show mapE (ensembleRecord (expJson e)) (e.ensembles.map Json.obj) = _
  exact mapE_ensembleRecord e.exname (Json.arr (e.ensembles.map Json.obj)) e.ensembles

theorem mapE_experimentRecords (exps : List ExperimentWire) :
    mapE experimentRecords (exps.map expJson)
      = Except.ok (exps.map
          (fun e => e.ensembles.map (fun fs => Json.obj (pyMerge (Json.str e.exname) fs)))) := by
  induction exps with
  | nil => rfl
  | cons e rest ih => simp only [List.map_cons, mapE, experimentRecords_eval, ih]

theorem flatten_build (exps : List ExperimentWire) :
    flattenExperiments (buildExperiments exps) = Except.ok (flattenWires exps) := by
  show (match mapE experimentRecords (exps.map expJson) with
        | Except.ok ls => Except.ok ls.flatten
        | Except.error e => Except.error e) = _
  rw [mapE_experimentRecords]
  rfl

/-- C8: on a successful GraphQL response, `get_all_ensembles` returns one
record per ensemble, in experiment order then per-experiment ensemble order,
each record the experiment name merged with the ensemble fields; exactly one
request is issued and nothing is logged. -/
theorem listAllEnsembles_flatten (L : DataLoader) (exps : List ExperimentWire) :
    L.get_all_ensembles (constWorld 200 (Body.jsonBody (gqlEnvelope (buildExperiments exps))))
      = ⟨Except.ok (flattenWires exps), [gqlRequest L GET_ALL_ENSEMBLES []], []⟩ := by
  show runCaught caughtRTE [] (gqlRequest L GET_ALL_ENSEMBLES [])
      (flattenExperiments (buildExperiments exps)) = _
  rw [flatten_build]
  rfl

/-- C6: `get_ensemble_parameter_data` with a `::`-qualified name issues one
GET against `ensembles/\x7bid\x7d/records/PORO` with `label=region1`; an
unqualified name issues the same path with no label parameter. -/
theorem parameter_label_request (L : DataLoader) (w : World) (e : String) :
    (L.get_ensemble_parameter_data w e "PORO::region1").requests
      = [restRequest L ("ensembles/" ++ e ++ "/records/" ++ "PORO")
          [("accept", "application/x-parquet")] [("label", PVal.str "region1")]]
    ∧ (L.get_ensemble_parameter_data w e "PORO").requests
      = [restRequest L ("ensembles/" ++ e ++ "/records/" ++ "PORO")
          [("accept", "application/x-parquet")] []] :=
  ⟨rfl, rfl⟩

/-- The C5 property at one status and body: every REST-backed operation
returns its declared empty value and logs exactly one error. -/
def restDegradesNon200 (L : DataLoader) (s : Nat) (b : Body) (e r : String) (sm : Bool) : Prop :=
  ((L.get_ensemble_responses (constWorld s b) e).val = Except.ok (Json.obj [])
    ∧ (L.get_ensemble_responses (constWorld s b) e).logged.length = 1)
  ∧ ((L.get_ensemble_userdata (constWorld s b) e).val = Except.ok (Json.obj [])
    ∧ (L.get_ensemble_userdata (constWorld s b) e).logged.length = 1)
  ∧ ((L.get_ensemble_parameters (constWorld s b) e).val = Except.ok (Json.arr [])
    ∧ (L.get_ensemble_parameters (constWorld s b) e).logged.length = 1)
  ∧ ((L.get_record_labels (constWorld s b) e r).val = Except.ok (Json.arr [])
    ∧ (L.get_record_labels (constWorld s b) e r).logged.length = 1)
  ∧ ((L.get_ensemble_parameter_data (constWorld s b) e r).val = Except.ok Table.empty
    ∧ (L.get_ensemble_parameter_data (constWorld s b) e r).logged.length = 1)
  ∧ ((L.get_ensemble_record_data (constWorld s b) e r).val = Except.ok Table.empty
    ∧ (L.get_ensemble_record_data (constWorld s b) e r).logged.length = 1)
  ∧ ((L.get_ensemble_record_observations (constWorld s b) e r).val = Except.ok (Json.arr [])
    ∧ (L.get_ensemble_record_observations (constWorld s b) e r).logged.length = 1)
  ∧ ((L.compute_misfit (constWorld s b) e r sm).val = Except.ok Table.empty
    ∧ (L.compute_misfit (constWorld s b) e r sm).logged.length = 1)

theorem rest_degrade_aux (L : DataLoader) (s : Nat) (b : Body)
    (e r : String) (sm : Bool) (hs : s ≠ 200) : restDegradesNon200 L s b e r sm := by
  unfold restDegradesNon200
  refine ⟨?_, ?_, ?_, ?_, ?_, ?_, ?_, ?_⟩ <;>
    simp [DataLoader.get_ensemble_responses, DataLoader.get_ensemble_userdata,
      DataLoader.get_ensemble_parameters, DataLoader.get_record_labels,
      DataLoader.get_ensemble_parameter_data, DataLoader.get_ensemble_record_data,
      DataLoader.get_ensemble_record_observations, DataLoader.compute_misfit,
      DataLoader._get, constWorld, runCaught, caughtDLE, exbind, hs]

/-- C5: a non-200 HTTP status makes every REST-backed domain operation return
its declared empty value, log exactly one error, and raise nothing. -/
theorem rest_non200_returns_empty_logs_once (L : DataLoader) (s : Nat) (b : Body)
    (e r : String) (sm : Bool) (hs : s ≠ 200) : restDegradesNon200 L s b e r sm :=
  rest_degrade_aux L s b e r sm hs

/-- Witness for C5 at status 500 with an arbitrary body. -/
theorem rest_non200_returns_empty_logs_once_witness :
    (500 ≠ 200) ∧ restDegradesNon200 srvLoader 500 (Body.rawBody "boom") "e" "r" true :=
  ⟨by decide, rest_non200_returns_empty_logs_once srvLoader 500 (Body.rawBody "boom")
    "e" "r" true (by decide)⟩

/-- The amended C1 property at one status and body: every domain operation,
GraphQL-backed ones included, degrades to its declared empty value with one
logged error when the transport answers with a non-success status. -/
def allDegradeNon200 (L : DataLoader) (s : Nat) (b : Body) (e r x : String) (sm : Bool) : Prop :=
  ((L.get_all_ensembles (constWorld s b)).val = Except.ok []
    ∧ (L.get_all_ensembles (constWorld s b)).logged.length = 1)
  ∧ ((L.get_ensemble (constWorld s b) e).val = Except.ok (Json.obj [])
    ∧ (L.get_ensemble (constWorld s b) e).logged.length = 1)
  ∧ ((L.get_experiment_priors (constWorld s b) x).val = Except.ok (Json.obj [])
    ∧ (L.get_experiment_priors (constWorld s b) x).logged.length = 1)
  ∧ restDegradesNon200 L s b e r sm

/-- C1 amended: no operation raises past the Client boundary for
transport-level failures: any non-200 response degrades every domain
operation, GraphQL and REST alike, to its declared empty value with exactly
one logged error. (Decode failures on 200 responses do escape; see the
counterexample.) -/
theorem all_operations_degrade_on_non200 (L : DataLoader) (s : Nat) (b : Body)
    (e r x : String) (sm : Bool) (hs : s ≠ 200) : allDegradeNon200 L s b e r x sm := by
  unfold allDegradeNon200
  refine ⟨?_, ?_, ?_, rest_degrade_aux L s b e r sm hs⟩ <;>
    cases b <;>
      simp [DataLoader.get_all_ensembles, DataLoader.get_ensemble,
        DataLoader.get_experiment_priors, DataLoader._query, constWorld, runCaught,
        caughtRTE, exbind, hs]

/-- Witness for the amended C1 at status 500 with an arbitrary body. -/
theorem all_operations_degrade_on_non200_witness :
    (500 ≠ 200) ∧ allDegradeNon200 srvLoader 500 (Body.rawBody "boom") "e" "r" "x" true :=
  ⟨by decide, all_operations_degrade_on_non200 srvLoader 500 (Body.rawBody "boom")
    "e" "r" "x" true (by decide)⟩

/-- C1 counterexample: HTTP 200 responses whose bodies fail the decode step
raise uncaught exceptions past the Client boundary: a non-JSON body in a
JSON-returning operation, a priors field that is not a valid JSON document,
and a non-parquet body in the tabular pipeline. -/
theorem decode_failures_escape_boundary :
    (srvLoader.get_ensemble_responses (constWorld 200 (Body.rawBody "boom")) "e").val
      = Except.error Exc.jsonDecodeError
    ∧ (srvLoader.get_experiment_priors (constWorld 200 (Body.jsonBody (Json.obj [("data",
        Json.obj [("experiment", Json.obj [("priors", Json.str "xnotjson")])])]))) "x").val
      = Except.error Exc.jsonDecodeError
    ∧ (srvLoader.get_ensemble_parameter_data (constWorld 200 (Body.rawBody "boom")) "e" "p").val
      = Except.error Exc.arrowInvalid :=
  ⟨rfl, rfl, rfl⟩

theorem sortIndex_sorted (t : Table) : List.Sorted idxLe (Table.sortIndex t).index := by
  have h := List.sorted_insertionSort rowLe (t.index.zip t.values)
  exact List.Pairwise.map Prod.fst (fun a b hab => hab) h

theorem sortIndex_index_perm (t : Table) (h : t.index.length ≤ t.values.length) :
    (Table.sortIndex t).index.Perm t.index := by
  have hp := List.perm_insertionSort rowLe (t.index.zip t.values)
  have hm := hp.map Prod.fst
  rwa [List.map_fst_zip t.index t.values h] at hm

theorem sortIndex_columns (t : Table) : (Table.sortIndex t).columns = t.columns := rfl

theorem coerceTable_columns (t : Table) : (coerceTable t).columns = t.columns := by
  unfold coerceTable
  cases h : coerceAll t.index <;> simp

theorem transpose_lens (t : Table) :
    (Table.transpose t).index.length ≤ (Table.transpose t).values.length := by
  simp [Table.transpose]

theorem coerceTable_lens (t : Table) (h : t.index.length ≤ t.values.length) :
    (coerceTable t).index.length ≤ (coerceTable t).values.length := by
  unfold coerceTable
  cases hc : coerceAll t.index with
  | none => exact h
  | some idx => simp [coerceAll_length _ _ hc, h]

theorem coerceAll_str_all_some (cols : List String)
    (h : ∀ s ∈ cols, (pyToInt s).isSome = true) :
    coerceAll (cols.map IdxVal.str)
      = some (cols.map (fun s => IdxVal.int ((pyToInt s).getD 0))) := by
  induction cols with
  | nil => rfl
  | cons c cs ih =>
    have hc := h c (List.mem_cons_self c cs)
    cases hv : pyToInt c with
    | none => rw [hv] at hc; simp at hc
    | some n =>
      have hrest := ih (fun s hs => h s (List.mem_cons_of_mem c hs))
      simp [coerceAll, coerceIdx, hv, hrest]

theorem coerceAll_str_none (cols : List String) (h : ∃ s ∈ cols, pyToInt s = none) :
    coerceAll (cols.map IdxVal.str) = none := by
  induction cols with
  | nil => simp at h
  | cons c cs ih =>
    rcases h with ⟨s, hs, hn⟩
    rw [List.mem_cons] at hs
    cases hs with
    | inl hs => subst hs; simp [coerceAll, coerceIdx, hn]
    | inr hs =>
      have hrest := ih ⟨s, hs, hn⟩
      simp only [List.map_cons, coerceAll, hrest]
      cases coerceIdx (IdxVal.str c) <;> rfl

/-- C7 counterexample: for a wire table with numeric string column labels,
`get_ensemble_record_data` does not return the plain transpose: the row index
has been coerced to integers, so the returned table differs from the
transpose even with the order unchanged. -/
theorem recordData_not_plain_transpose :
    (srvLoader.get_ensemble_record_data (constWorld 200 (Body.parquetBody
        ⟨[IdxVal.str "x"], [IdxVal.str "1", IdxVal.str "2"], [["a", "b"]]⟩)) "e" "r").val
      = Except.ok ⟨[IdxVal.int 1, IdxVal.int 2], [IdxVal.str "x"], [["a"], ["b"]]⟩
    ∧ (⟨[IdxVal.int 1, IdxVal.int 2], [IdxVal.str "x"], [["a"], ["b"]]⟩ : Table)
      ≠ (Table.mk [IdxVal.str "x"] [IdxVal.str "1", IdxVal.str "2"] [["a", "b"]]).transpose :=
  ⟨rfl, by decide⟩

/-- C7 amended: `get_ensemble_parameter_data` returns exactly the transpose
of the decoded wire table; `get_ensemble_record_data` returns the transpose
with its row index subsequently int-coerced and sorted, its columns still
being the wire rows; `compute_misfit` returns the CSV table untransposed with
the first column as index. -/
theorem tabular_orientation (L : DataLoader) (e r m : String) (sm : Bool)
    (wire : Table) (g : CsvGrid) :
    (L.get_ensemble_parameter_data (constWorld 200 (Body.parquetBody wire)) e r).val
      = Except.ok wire.transpose
    ∧ (L.get_ensemble_record_data (constWorld 200 (Body.parquetBody wire)) e r).val
      = Except.ok (Table.sortIndex (coerceTable wire.transpose))
    ∧ wire.transpose.columns = wire.index
    ∧ (Table.sortIndex (coerceTable wire.transpose)).columns = wire.index
    ∧ (L.compute_misfit (constWorld 200 (Body.csvBody g)) e m sm).val
      = Except.ok (readCsvGrid g)
    ∧ readCsvGrid g
      = ⟨g.rows.map (fun row => IdxVal.str (row.headD "")),
         (g.header.drop 1).map IdxVal.str,
         g.rows.map (fun row => row.drop 1)⟩ :=
  ⟨rfl, rfl, rfl, (sortIndex_columns _).trans (coerceTable_columns _), rfl, rfl⟩

/-- C2 counterexample: with non-numeric wire column labels `["b", "a"]` the
decoded rows do not keep their original order: the unconditional
`sort_index()` reorders them (and their values) by string index. -/
theorem recordData_string_index_reordered :
    (srvLoader.get_ensemble_record_data (constWorld 200 (Body.parquetBody
        ⟨[IdxVal.str "row0"], [IdxVal.str "b", IdxVal.str "a"], [["1", "2"]]⟩)) "e" "r").val
      = Except.ok ⟨[IdxVal.str "a", IdxVal.str "b"], [IdxVal.str "row0"], [["2"], ["1"]]⟩
    ∧ ([IdxVal.str "a", IdxVal.str "b"] ≠ [IdxVal.str "b", IdxVal.str "a"]) :=
  ⟨rfl, by decide⟩

/-- C2 amended: `get_ensemble_record_data` never raises on any decoded wire
table with string column labels; the result is the transpose with the index
coerced and the rows sorted ascending by index: when every label parses as an
integer the index is integer-typed, and when some label does not parse the
index keeps the original strings (but the rows are still sorted, not left in
original order). -/
theorem recordData_index_coercion_sort (L : DataLoader) (e r : String)
    (wire : Table) (cols : List String) (hc : wire.columns = cols.map IdxVal.str) :
    ((L.get_ensemble_record_data (constWorld 200 (Body.parquetBody wire)) e r).val
        = Except.ok (Table.sortIndex (coerceTable wire.transpose))
      ∧ List.Sorted idxLe (Table.sortIndex (coerceTable wire.transpose)).index
      ∧ (Table.sortIndex (coerceTable wire.transpose)).index.Perm (coerceTable wire.transpose).index)
    ∧ ((∀ s ∈ cols, (pyToInt s).isSome = true) →
        (coerceTable wire.transpose).index = cols.map (fun s => IdxVal.int ((pyToInt s).getD 0)))
    ∧ ((∃ s ∈ cols, pyToInt s = none) →
        (coerceTable wire.transpose).index = cols.map IdxVal.str) := by
  have hidx : (Table.transpose wire).index = cols.map IdxVal.str := by
    simp [Table.transpose, hc]
  refine ⟨⟨rfl, sortIndex_sorted _,
    sortIndex_index_perm _ (coerceTable_lens _ (transpose_lens wire))⟩, ?_, ?_⟩
  · intro h
    have hsome := coerceAll_str_all_some cols h
    unfold coerceTable
    rw [hidx, hsome]
  · intro h
    have hnone := coerceAll_str_none cols h
    unfold coerceTable
    rw [hidx, hnone]
    exact hidx

/-- The numeric-index wire table of the C2 witness. -/
def wireNumEx : Table := ⟨[IdxVal.str "x"], [IdxVal.str "3", IdxVal.str "1", IdxVal.str "2"],
  [["a", "b", "c"]]⟩

/-- The column labels of `wireNumEx`. -/
def colsNumEx : List String := ["3", "1", "2"]

/-- Witness for the amended C2 at the claim's own numeric example
`["3", "1", "2"]`. -/
theorem recordData_index_coercion_sort_witness :
    wireNumEx.columns = colsNumEx.map IdxVal.str
    ∧ (((srvLoader.get_ensemble_record_data (constWorld 200 (Body.parquetBody wireNumEx)) "e" "r").val
        = Except.ok (Table.sortIndex (coerceTable wireNumEx.transpose))
      ∧ List.Sorted idxLe (Table.sortIndex (coerceTable wireNumEx.transpose)).index
      ∧ (Table.sortIndex (coerceTable wireNumEx.transpose)).index.Perm (coerceTable wireNumEx.transpose).index)
    ∧ ((∀ s ∈ colsNumEx, (pyToInt s).isSome = true) →
        (coerceTable wireNumEx.transpose).index = colsNumEx.map (fun s => IdxVal.int ((pyToInt s).getD 0)))
    ∧ ((∃ s ∈ colsNumEx, pyToInt s = none) →
        (coerceTable wireNumEx.transpose).index = colsNumEx.map IdxVal.str)) :=
  ⟨rfl, recordData_index_coercion_sort srvLoader "e" "r" wireNumEx colsNumEx rfl⟩
